import Mathlib

/-!
Formal model of the OneAgent repository: the LangGraph conversation loop
(`agent_setup.py`), the tool wrappers (`tools.py`), the Supabase storage
client (`database.py`), and the streaming endpoint (`main.py`), as a
shallow embedding.  External collaborators (the Gemini reasoning service,
the HTTP expense/notes APIs, the Supabase database, the LangGraph
executor) appear as explicit oracle parameters; the repository's own
logic is transcribed directly.
-/

namespace OneAgent

/-! ## Messages (langchain message model as used by `agent_setup.py`) -/

/-- One entry of an assistant message's `tool_calls` list:
`tool_call["name"]`, `tool_call["args"]`, `tool_call["id"]`. -/
structure ToolCall where
  name : String
  args : String
  id : String
deriving DecidableEq, Repr

/-- An `AIMessage`: free text plus the attached tool calls. -/
structure AIMsg where
  content : String
  tool_calls : List ToolCall
deriving DecidableEq, Repr

/-- A `ToolMessage`: the rendered tool output plus the `tool_call_id`
back-reference. -/
structure ToolMsg where
  content : String
  tool_call_id : String
deriving DecidableEq, Repr

/-- A message of the conversation state (`AgentState.messages`). -/
inductive Msg
  | human (content : String)
  | ai (m : AIMsg)
  | tool (m : ToolMsg)
deriving DecidableEq, Repr

/-- `langgraph.prebuilt.ToolInvocation`: tool name plus raw input. -/
structure ToolInvocation where
  tool : String
  tool_input : String
deriving DecidableEq, Repr

/-- `ToolExecutor.batch` (langgraph / langchain `Runnable.batch`): runs the
single-invocation executor on each invocation, one result per invocation,
in order. -/
def executorBatch (exec1 : ToolInvocation → String) (invs : List ToolInvocation) : List String :=
  invs.map exec1

/-! ## `call_tools` (agent_setup.py lines 162-190) -/

/-- `call_tools`: builds a `ToolInvocation` per tool call of the last
(assistant) message, runs the executor batch, and zips the responses back
with the tool calls into `ToolMessage`s carrying each call's id.  The
batch function is the external executor collaborator, passed explicitly. -/
def call_tools (batch : List ToolInvocation → List String) (last_message : AIMsg) :
    List ToolMsg :=
  let tool_invocations := last_message.tool_calls.map
    (fun tool_call => ToolInvocation.mk tool_call.name tool_call.args)
  let responses := batch tool_invocations
  List.zipWith
    (fun (response : String) (tool_call : ToolCall) => ToolMsg.mk response tool_call.id)
    responses last_message.tool_calls

/-! ## `should_continue` (agent_setup.py lines 129-138) -/

/-- The langgraph `END` sentinel. -/
def END : String := "__end__"

/-- `should_continue`: route to the `"tools"` node when the last message
has a non-empty `tool_calls` list (Python truthiness of the list),
otherwise stop (`END`).  The graph invokes it on the assistant message
just produced by the `agent` node, so the argument is an `AIMsg`. -/
def should_continue (last_message : AIMsg) : String :=
  if last_message.tool_calls ≠ [] then "tools" else END

/-- Helper: `call_tools` over the one-result-per-invocation batch executor
is a pointwise map over the tool calls. -/
theorem call_tools_eq_map (exec1 : ToolInvocation → String) (last_message : AIMsg) :
    call_tools (executorBatch exec1) last_message =
      last_message.tool_calls.map
        (fun tc => ToolMsg.mk (exec1 (ToolInvocation.mk tc.name tc.args)) tc.id) := by
  unfold call_tools executorBatch
  induction last_message.tool_calls with
  | nil => rfl
  | cons hd tl ih => simpa using ih

/-- Claim C2: for every sequence of N tool-invocation requests attached to
an assistant message, the tool-executor step returns exactly N results,
order-preserving (result i answers request i: its content is the executor
output for request i), and each appended tool-result message carries the
`call_id` of its matching request. -/
theorem claim_C2_tool_executor_order (exec1 : ToolInvocation → String) (last_message : AIMsg) :
    (call_tools (executorBatch exec1) last_message).length =
        last_message.tool_calls.length ∧
    ∀ i : Nat,
      ((call_tools (executorBatch exec1) last_message).get? i).map (fun m => m.tool_call_id)
        = (last_message.tool_calls.get? i).map (fun tc => tc.id) ∧
      ((call_tools (executorBatch exec1) last_message).get? i).map (fun m => m.content)
        = (last_message.tool_calls.get? i).map
            (fun tc => exec1 (ToolInvocation.mk tc.name tc.args)) := by
  rw [call_tools_eq_map]
  refine ⟨List.length_map _ _, fun i => ⟨?_, ?_⟩⟩ <;>
    (rw [List.get?_map]; cases last_message.tool_calls.get? i <;> rfl)

/-- Claim C4: after a reasoning step the loop goes to the `"tools"` node
iff the assistant message has at least one tool call; otherwise it routes
to `END`, and in particular an assistant message with no tool calls and
empty text routes to `END` (degenerate terminal reply "") rather than
looping. -/
theorem claim_C4_should_continue (m : AIMsg) :
    (should_continue m = "tools" ↔ m.tool_calls ≠ []) ∧
    (should_continue m = END ↔ m.tool_calls = []) ∧
    should_continue ⟨"", []⟩ = END := by
  unfold should_continue
  rcases m with ⟨c, tcs⟩
  cases tcs <;> simp [END]

/-! ## The LangGraph workflow (agent_setup.py lines 140-218) -/

/-- The system prompt prepended by `call_model`. -/
def system_message : String :=
  "You are a helpful financial assistant that can:\n1. Create expense records\n2. Create notes\n3. Fetch expense data\n4. Fetch notes\n5. Analyze financial data and provide insights\n\nWhen users ask to create, fetch, or analyze data, use the appropriate tools.\nBe helpful and provide clear responses. For analysis requests, fetch the relevant data first, then analyze it."

/-- `isinstance(m, AIMessage)`. -/
def isAIMessage : Msg → Bool
  | Msg.ai _ => true
  | _ => false

/-- `call_model`: prepend the system message (as an `AIMessage`) when the
history is empty or does not start with an `AIMessage`, then invoke the
model.  The external reasoning collaborator is the oracle `llm`; the
function returns the response that the graph appends to the state. -/
def call_model (llm : List Msg → AIMsg) (messages : List Msg) : AIMsg :=
  let msgs :=
    match messages with
    | [] => [Msg.ai ⟨system_message, []⟩]
    | m :: _ =>
        if isAIMessage m then messages
        else Msg.ai ⟨system_message, []⟩ :: messages
  llm msgs

/-- Nodes of the compiled workflow (`workflow.add_node`), plus the
terminal `END`. -/
inductive Node
  | agent
  | tools
  | done
deriving DecidableEq, Repr

/-- `messages[-1]` as read by `call_tools`; in the compiled graph the
`tools` node only runs immediately after the `agent` node appended an
assistant message, so the last message is always an `AIMessage`. -/
def lastAI (messages : List Msg) : AIMsg :=
  match messages.getLast? with
  | some (Msg.ai m) => m
  | _ => ⟨"", []⟩

/-- One superstep of the compiled graph: the `agent` node appends the
model response and routes through the conditional edge mapping
`{"tools": "tools", END: END}` computed by `should_continue`; the
`tools` node appends one `ToolMessage` per executor response and follows
the unconditional `tools → agent` edge (`workflow.add_edge`). -/
def graphStep (llm : List Msg → AIMsg) (batch : List ToolInvocation → List String) :
    Node × List Msg → Node × List Msg
  | (Node.agent, messages) =>
      let response := call_model llm messages
      let messages' := messages ++ [Msg.ai response]
      if should_continue response = "tools" then (Node.tools, messages')
      else (Node.done, messages')
  | (Node.tools, messages) =>
      (Node.agent, messages ++ (call_tools batch (lastAI messages)).map Msg.tool)
  | (Node.done, messages) => (Node.done, messages)

/-- Run the compiled graph under the framework's recursion limit: each
superstep consumes one unit of the limit, and exhausting it before a
terminal node is reached raises `GraphRecursionError` (modelled as
`Except.error`).  Nothing in `agent_setup.py` installs an iteration cap
of its own. -/
def runGraph (llm : List Msg → AIMsg) (batch : List ToolInvocation → List String) :
    Nat → Node × List Msg → Except String (List Msg)
  | 0, (node, messages) =>
      if node = Node.done then Except.ok messages
      else Except.error "GraphRecursionError"
  | fuel + 1, (node, messages) =>
      if node = Node.done then Except.ok messages
      else runGraph llm batch fuel (graphStep llm batch (node, messages))

/-- The langgraph default recursion limit, used because neither
`run_agent` nor `main.py` passes an explicit limit in the config. -/
def recursion_limit : Nat := 25

/-- `AGENT.invoke({"messages": [HumanMessage(content=query)]})`. -/
def invokeAgent (llm : List Msg → AIMsg) (batch : List ToolInvocation → List String)
    (query : String) : Except String (List Msg) :=
  runGraph llm batch recursion_limit (Node.agent, [Msg.human query])

/-- A reasoning oracle that requests one tool call on every turn. -/
def llmAlwaysTool : List Msg → AIMsg :=
  fun _ => ⟨"", [⟨"tool_fetch_expenses", "user_id=u1", "call_1"⟩]⟩

/-- A per-invocation executor stub. -/
def execStub : ToolInvocation → String := fun _ => "[]"

/-- Claim C1 counterexample: with a reasoning oracle that keeps
requesting tool calls, the compiled LangGraph workflow never forces a
transition to `Done` with a fallback reply — the run aborts with the
framework's `GraphRecursionError` once the recursion limit is exhausted.
There is no iteration cap in `agent_setup.py`, so the claimed
"forced transition to Done with a synthesized fallback reply rather than
crashing" does not hold for the workflow the servers actually invoke. -/
theorem claim_C1_counterexample :
    invokeAgent llmAlwaysTool (executorBatch execStub) "fetch my expenses"
      = Except.error "GraphRecursionError" := by
  rfl

/-! ## The legacy ReAct agent (src/unnamed/part_000 lines 142-149):
`initialize_agent(..., max_iterations=5, early_stopping_method="generate")` -/

/-- One decision of the legacy ReAct loop: either invoke a tool or finish
with a final answer. -/
inductive LegacyDecision
  | action (tool : String) (tool_input : String)
  | finish (output : String)
deriving DecidableEq, Repr

/-- An executed intermediate step of the legacy loop (the scratchpad
entries). -/
structure LegacyStep where
  tool : String
  tool_input : String
  observation : String
deriving DecidableEq, Repr

/-- Whether a decision is a tool action. -/
def LegacyDecision.isAction : LegacyDecision → Bool
  | .action _ _ => true
  | .finish _ => false

/-- The langchain `AgentExecutor` loop with an iteration budget: each
cycle asks the model (`llm`) to decide over the scratchpad; `finish` ends
the loop with its text; `action` runs the tool and records the step.
When the budget is exhausted, `early_stopping_method="generate"` makes
one final generation call over the scratchpad (`gen`) and returns its
text as a synthesized reply.  The second component counts the
Reasoning/Acting cycles performed. -/
def legacyRun (llm : List LegacyStep → LegacyDecision) (gen : List LegacyStep → String)
    (runTool : String → String → String) :
    Nat → List LegacyStep → Nat → String × Nat
  | 0, steps, used => (gen steps, used)
  | fuel + 1, steps, used =>
      match llm steps with
      | .finish output => (output, used)
      | .action t inp =>
          legacyRun llm gen runTool fuel (steps ++ [⟨t, inp, runTool t inp⟩]) (used + 1)

/-- `max_iterations=5` from `initialize_agent`. -/
def max_iterations : Nat := 5

/-- The legacy `AGENT` run on a fresh scratchpad. -/
def legacyAgent (llm : List LegacyStep → LegacyDecision) (gen : List LegacyStep → String)
    (runTool : String → String → String) : String × Nat :=
  legacyRun llm gen runTool max_iterations [] 0

/-- The scratchpad accumulated by a run (for stating what the synthesized
fallback is generated from). -/
def legacyTrace (llm : List LegacyStep → LegacyDecision)
    (runTool : String → String → String) :
    Nat → List LegacyStep → List LegacyStep
  | 0, steps => steps
  | fuel + 1, steps =>
      match llm steps with
      | .finish _ => steps
      | .action t inp => legacyTrace llm runTool fuel (steps ++ [⟨t, inp, runTool t inp⟩])

theorem legacyRun_cycles_le (llm : List LegacyStep → LegacyDecision)
    (gen : List LegacyStep → String) (runTool : String → String → String) :
    ∀ fuel steps used, (legacyRun llm gen runTool fuel steps used).2 ≤ used + fuel := by
  intro fuel
  induction fuel with
  | zero => intro steps used; simp [legacyRun]
  | succ n ih =>
      intro steps used
      simp only [legacyRun]
      cases llm steps with
      | finish output => simp
      | action t inp =>
          show (legacyRun llm gen runTool n
              (steps ++ [⟨t, inp, runTool t inp⟩]) (used + 1)).2 ≤ used + (n + 1)
          have := ih (steps ++ [⟨t, inp, runTool t inp⟩]) (used + 1)
          omega

theorem legacyRun_always_acts (llm : List LegacyStep → LegacyDecision)
    (gen : List LegacyStep → String) (runTool : String → String → String)
    (h : ∀ steps, (llm steps).isAction = true) :
    ∀ fuel steps used, legacyRun llm gen runTool fuel steps used
      = (gen (legacyTrace llm runTool fuel steps), used + fuel) := by
  intro fuel
  induction fuel with
  | zero => intro steps used; simp [legacyRun, legacyTrace]
  | succ n ih =>
      intro steps used
      simp only [legacyRun, legacyTrace]
      cases hd : llm steps with
      | finish output => exact absurd (h steps) (by simp [hd, LegacyDecision.isAction])
      | action t inp =>
          show legacyRun llm gen runTool n
              (steps ++ [⟨t, inp, runTool t inp⟩]) (used + 1)
            = (gen (legacyTrace llm runTool n (steps ++ [⟨t, inp, runTool t inp⟩])),
                used + (n + 1))
          rw [ih]
          have harith : used + 1 + n = used + (n + 1) := by omega
          rw [harith]

/-- Claim C1 (amended): the cap-bounded termination with a synthesized
fallback holds only for the legacy agent of `src/unnamed/part_000`
(`max_iterations=5`, `early_stopping_method="generate"`): every run
performs at most 5 Reasoning/Acting cycles, and when the model requests a
tool call on every turn, the run stops after exactly 5 cycles and returns
the reply synthesized by the final generation call over the accumulated
scratchpad — no 6th acting cycle, no crash.  (The LangGraph workflow in
`agent_setup.py` has no such cap; see the counterexample.) -/
theorem claim_C1_legacy_cap (llm : List LegacyStep → LegacyDecision)
    (gen : List LegacyStep → String) (runTool : String → String → String) :
    (legacyAgent llm gen runTool).2 ≤ max_iterations ∧
    ((∀ steps, (llm steps).isAction = true) →
      legacyAgent llm gen runTool
        = (gen (legacyTrace llm runTool max_iterations []), max_iterations)) := by
  constructor
  · simpa [legacyAgent] using
      legacyRun_cycles_le llm gen runTool max_iterations [] 0
  · intro h
    simpa [legacyAgent] using
      legacyRun_always_acts llm gen runTool h max_iterations [] 0

/-- A legacy-model oracle that acts on every turn. -/
def legacyAlwaysAct : List LegacyStep → LegacyDecision :=
  fun _ => LegacyDecision.action "fetch_expenses" "user_id=u1"

/-- A final-generation oracle for the legacy model. -/
def legacyGen : List LegacyStep → String := fun _ => "fallback summary"

/-- A tool-run stub for the legacy model. -/
def legacyToolStub : String → String → String := fun _ _ => "[]"

/-- Witness for `claim_C1_legacy_cap` at a concrete always-acting
oracle. -/
theorem claim_C1_legacy_cap_witness :
    (legacyAgent legacyAlwaysAct legacyGen legacyToolStub).2 ≤ max_iterations ∧
    legacyAgent legacyAlwaysAct legacyGen legacyToolStub
      = (legacyGen (legacyTrace legacyAlwaysAct legacyToolStub max_iterations []),
          max_iterations) :=
  ⟨(claim_C1_legacy_cap legacyAlwaysAct legacyGen legacyToolStub).1,
    (claim_C1_legacy_cap legacyAlwaysAct legacyGen legacyToolStub).2 (fun _ => rfl)⟩

/-- A batch executor that (hypothetically) returns zero results. -/
def batchEmpty : List ToolInvocation → List String := fun _ => []

/-- A reasoning oracle that replies with plain text. -/
def llmSilent : List Msg → AIMsg := fun _ => ⟨"", []⟩

/-- A state whose last message is an assistant message with one pending
tool call. -/
def stateWithPendingCall : List Msg :=
  [Msg.human "fetch my expenses",
   Msg.ai ⟨"", [⟨"tool_fetch_expenses", "user_id=u1", "call_1"⟩]⟩]

/-- Claim C5 counterexample: when the executor returns zero results for
the non-empty request list, the `tools` node appends nothing and the
unconditional `tools → agent` edge routes straight back to the agent
node — the state is unchanged (no internal-error reply is appended) and
the next node is `agent`, not the terminal node.  No zero-results defense
exists in `call_tools` or in the graph wiring. -/
theorem claim_C5_counterexample :
    graphStep llmSilent batchEmpty (Node.tools, stateWithPendingCall)
        = (Node.agent, stateWithPendingCall) ∧
    Node.agent ≠ Node.done := by
  constructor
  · rfl
  · decide

/-- Claim C5 (amended): the `tools` node always routes back to `agent`
unconditionally, and with the actual executor-batch semantics (one
response per invocation) a non-empty request list always produces a
non-empty result list, so the defended-against zero-results situation
cannot arise. -/
theorem claim_C5_no_empty_results (exec1 : ToolInvocation → String) (last_message : AIMsg)
    (h : last_message.tool_calls ≠ []) :
    call_tools (executorBatch exec1) last_message ≠ [] ∧
    ∀ (llm : List Msg → AIMsg) (messages : List Msg),
      (graphStep llm (executorBatch exec1) (Node.tools, messages)).1 = Node.agent := by
  constructor
  · rw [call_tools_eq_map]
    simpa using h
  · intro llm messages
    rfl

/-- Witness for `claim_C5_no_empty_results` at a concrete one-call
message. -/
theorem claim_C5_no_empty_results_witness :
    (AIMsg.mk "" [⟨"tool_fetch_expenses", "user_id=u1", "call_1"⟩]).tool_calls ≠ [] ∧
    (call_tools (executorBatch execStub)
        (AIMsg.mk "" [⟨"tool_fetch_expenses", "user_id=u1", "call_1"⟩]) ≠ [] ∧
      ∀ (llm : List Msg → AIMsg) (messages : List Msg),
        (graphStep llm (executorBatch execStub) (Node.tools, messages)).1 = Node.agent) :=
  ⟨by decide,
    claim_C5_no_empty_results execStub
      (AIMsg.mk "" [⟨"tool_fetch_expenses", "user_id=u1", "call_1"⟩]) (by decide)⟩

/-! ## The tool wrappers (agent_setup.py lines 42-85) and the HTTP tool
handlers (tools.py).  The remote expense API is an oracle parameter; the
parsing code is transcribed. -/

/-- `s.split(sep)` for a one-character separator, Python semantics
(`"".split(";") == [""]`). -/
def splitOnChar (sep : Char) : List Char → List (List Char)
  | [] => [[]]
  | c :: r =>
      if c = sep then [] :: splitOnChar sep r
      else
        match splitOnChar sep r with
        | [] => [[c]]
        | g :: gs => (c :: g) :: gs

/-- Python `str.strip()` whitespace test (ASCII whitespace). -/
def isPySpace (c : Char) : Bool :=
  c = ' ' || c = '\t' || c = '\n' || c = '\x0d' || c = '\x0b' || c = '\x0c'

/-- Python `s.strip()` on the character list. -/
def trimChars (l : List Char) : List Char :=
  ((l.dropWhile isPySpace).reverse.dropWhile isPySpace).reverse

/-- `dict(x.split("=", 1) for x in input_str.split(";") if "=" in x)`,
kept as the pair list. -/
def parsePairs (input_str : String) : List (String × String) :=
  (splitOnChar ';' input_str.data).filterMap fun x =>
    if x.contains '=' then
      some (⟨x.takeWhile (· ≠ '=')⟩, ⟨(x.dropWhile (· ≠ '=')).drop 1⟩)
    else none

/-- Python dict lookup over the pair list: the last binding of a key
wins, matching `dict(...)` construction. -/
def dictGet (pairs : List (String × String)) (k : String) : Option String :=
  (pairs.reverse.find? (fun p => p.1 == k)).map (fun p => p.2)

/-- Acceptance of `float(s)`: optional surrounding whitespace, optional
sign, digits with an optional fraction part.  (The scientific-notation
and infinity forms, which no caller produces, are omitted.) -/
def isFloatLit (s : String) : Bool :=
  let l2 := match trimChars s.data with
    | '+' :: r => r
    | '-' :: r => r
    | r => r
  let intPart := l2.takeWhile Char.isDigit
  match l2.dropWhile Char.isDigit with
  | [] => !intPart.isEmpty
  | '.' :: frac => (!intPart.isEmpty || !frac.isEmpty) && frac.all Char.isDigit
  | _ => false

/-- Acceptance of `int(s)`: optional surrounding whitespace, optional
sign, one or more digits. -/
def isIntLit (s : String) : Bool :=
  let l2 := match trimChars s.data with
    | '+' :: r => r
    | '-' :: r => r
    | r => r
  !l2.isEmpty && l2.all Char.isDigit

/-- The numeric value of an accepted `int(s)` literal. -/
def pyIntVal (s : String) : Int :=
  let l := trimChars s.data
  let sign : Int := if l.head? = some '-' then -1 else 1
  let l2 := match l with
    | '+' :: r => r
    | '-' :: r => r
    | r => r
  sign * (l2.foldl (fun a c => a * 10 + (c.toNat - 48)) 0 : Nat)

/-- A rendered Python value inside an API response dict: `.str` carries
a string (repr single-quoted), `.raw` carries any other value by its
`str`/`repr` rendition (numbers etc.). -/
inductive PyVal
  | str (v : String)
  | raw (v : String)
deriving DecidableEq, Repr

/-- `repr` of a dict value. -/
def reprVal : PyVal → String
  | .str v => "\x27" ++ v ++ "\x27"
  | .raw v => v

/-- A JSON-object response, as the Python dict the tool handlers pass
around. -/
abbrev Record := List (String × PyVal)

/-- `", ".join(parts)`. -/
def joinSep (sep : String) : List String → String
  | [] => ""
  | [x] => x
  | x :: xs => x ++ sep ++ joinSep sep xs

/-- `str(d)` for a dict. -/
def pyStrDict (r : Record) : String :=
  "\x7b" ++ joinSep ", "
    (r.map (fun kv => "\x27" ++ kv.1 ++ "\x27: " ++ reprVal kv.2)) ++ "\x7d"

/-- `str(l)` for a list of dicts. -/
def pyStrList (rs : List Record) : String :=
  "[" ++ joinSep ", " (rs.map pyStrDict) ++ "]"

/-- `create_expense` (tools.py lines 18-50): builds the payload, posts it
to the expense API (oracle `net`: payload to either the parsed JSON
response or the exception text), and catches every request failure into
an `error` dict — it never raises.  `today` stands for
`datetime.now().strftime(...)`, used when no date is given. -/
def create_expense (net : Record → Except String Record)
    (user_id : String) (amount : String) (description : String)
    (date : Option String) (today : String) : Record :=
  let date' := match date with        -- `if not date:`: None and "" are falsy
    | none => today
    | some d => if d = "" then today else d
  let payload : Record :=
    [("user_id", PyVal.str user_id), ("amount", PyVal.raw amount),
     ("description", PyVal.str description), ("date", PyVal.str date')]
  match net payload with
  | Except.ok result => result
  | Except.error e => [("error", PyVal.str ("Failed to create expense: " ++ e))]

/-- The body of `tool_create_expense` under its `try`: everything that
can raise — `KeyError` on a missing key (whose `str` is the quoted key),
`ValueError` from `float` — is an `Except.error` carrying `str(e)`. -/
def tool_create_expense_body (net : Record → Except String Record) (today : String)
    (input_str : String) : Except String String :=
  let pairs := parsePairs input_str
  match dictGet pairs "user_id" with
  | none => Except.error "\x27user_id\x27"
  | some user_id =>
      match dictGet pairs "amount" with
      | none => Except.error "\x27amount\x27"
      | some amount =>
          if isFloatLit amount then
            Except.ok (pyStrDict (create_expense net user_id amount
              ((dictGet pairs "description").getD "expense") (dictGet pairs "date") today))
          else
            Except.error ("could not convert string to float: \x27" ++ amount ++ "\x27")

/-- `tool_create_expense` (agent_setup.py lines 42-55): the body under
`try`, with any raised error formatted by the `except` clause. -/
def tool_create_expense (net : Record → Except String Record) (today : String)
    (input_str : String) : String :=
  match tool_create_expense_body net today input_str with
  | Except.ok s => s
  | Except.error e => "Error creating expense: " ++ e

/-- The parsed JSON body of a `fetchExpenses` response: `expenses` is
`result.get("expenses", [])`, `none` when the key is absent. -/
structure FetchResult where
  expenses : Option (List Record)
deriving DecidableEq, Repr

/-- `fetch_expenses` (tools.py lines 76-101): posts `{userId, limit}` to
the expense API (oracle `net`) and catches every request failure into a
one-element list holding an `error` dict — it never raises. -/
def fetch_expenses (net : String → Int → Except String FetchResult)
    (user_id : String) (limit : Int) : List Record :=
  match net user_id limit with
  | Except.ok result => result.expenses.getD []
  | Except.error e => [[("error", PyVal.str ("Failed to fetch expenses: " ++ e))]]

/-- The body of `tool_fetch_expenses` under its `try`: `KeyError` from
the missing `user_id`, `ValueError` from `int`, as `Except.error`. -/
def tool_fetch_expenses_body (net : String → Int → Except String FetchResult)
    (input_str : String) : Except String String :=
  let pairs := parsePairs input_str
  match dictGet pairs "user_id" with
  | none => Except.error "\x27user_id\x27"
  | some user_id =>
      let limitStr := (dictGet pairs "limit").getD "20"
      if isIntLit limitStr then
        Except.ok (pyStrList (fetch_expenses net user_id (pyIntVal limitStr)))
      else
        Except.error ("invalid literal for int() with base 10: \x27" ++ limitStr ++ "\x27")

/-- `tool_fetch_expenses` (agent_setup.py lines 67-75). -/
def tool_fetch_expenses (net : String → Int → Except String FetchResult)
    (input_str : String) : String :=
  match tool_fetch_expenses_body net input_str with
  | Except.ok s => s
  | Except.error e => "Error fetching expenses: " ++ e

/-- `create_note` (tools.py lines 52-74): posts `{user_id, text}` to the
notes API (oracle `net`) and catches every request failure into an
`error` dict — it never raises. -/
def create_note (net : Record → Except String Record)
    (user_id : String) (text : String) : Record :=
  let payload : Record := [("user_id", PyVal.str user_id), ("text", PyVal.str text)]
  match net payload with
  | Except.ok result => result
  | Except.error e => [("error", PyVal.str ("Failed to create note: " ++ e))]

/-- The body of `tool_create_note` under its `try`: `KeyError` on a
missing `user_id` or `text` key, as `Except.error` carrying `str(e)`. -/
def tool_create_note_body (net : Record → Except String Record)
    (input_str : String) : Except String String :=
  let pairs := parsePairs input_str
  match dictGet pairs "user_id" with
  | none => Except.error "\x27user_id\x27"
  | some user_id =>
      match dictGet pairs "text" with
      | none => Except.error "\x27text\x27"
      | some text => Except.ok (pyStrDict (create_note net user_id text))

/-- `tool_create_note` (agent_setup.py lines 57-65). -/
def tool_create_note (net : Record → Except String Record)
    (input_str : String) : String :=
  match tool_create_note_body net input_str with
  | Except.ok s => s
  | Except.error e => "Error creating note: " ++ e

/-- `fetch_notes` (tools.py lines 103-125): issues the GET with
`{user_id, limit}` params to the notes API (oracle `net`) and catches
every request failure into a one-element list holding an `error` dict —
it never raises. -/
def fetch_notes (net : String → Int → Except String (List Record))
    (user_id : String) (limit : Int) : List Record :=
  match net user_id limit with
  | Except.ok result => result
  | Except.error e => [[("error", PyVal.str ("Failed to fetch notes: " ++ e))]]

/-- The body of `tool_fetch_notes` under its `try`. -/
def tool_fetch_notes_body (net : String → Int → Except String (List Record))
    (input_str : String) : Except String String :=
  let pairs := parsePairs input_str
  match dictGet pairs "user_id" with
  | none => Except.error "\x27user_id\x27"
  | some user_id =>
      let limitStr := (dictGet pairs "limit").getD "20"
      if isIntLit limitStr then
        Except.ok (pyStrList (fetch_notes net user_id (pyIntVal limitStr)))
      else
        Except.error ("invalid literal for int() with base 10: \x27" ++ limitStr ++ "\x27")

/-- `tool_fetch_notes` (agent_setup.py lines 77-85). -/
def tool_fetch_notes (net : String → Int → Except String (List Record))
    (input_str : String) : String :=
  match tool_fetch_notes_body net input_str with
  | Except.ok s => s
  | Except.error e => "Error fetching notes: " ++ e

/-- The analysis prompt built by `tool_analyze` around the input (the
f-string of agent_setup.py lines 91-101, including its literal
heading characters). -/
def analysis_prompt (input_str : String) : String :=
  "You are a financial analysis assistant. Analyze the following data and provide insights:\n\n"
    ++ input_str ++
    "\n\nProvide a clear, structured analysis with:\nğŸ“Œ Key Findings\nğŸ“Š Spending Patterns  \nğŸ§© Correlations\nâœ… Recommendations\n\nFormat output to be visually easy to read in plain text with tables and bullet points where appropriate."

/-- `tool_analyze` (agent_setup.py lines 87-107): builds the analysis
prompt and invokes the model on it (oracle `llm`, which may fail); any
failure raised under the `try` is caught and formatted by the `except`
clause. -/
def tool_analyze (llm : String → Except String String) (input_str : String) : String :=
  match llm (analysis_prompt input_str) with
  | Except.ok content => content
  | Except.error e => "Error during analysis: " ++ e

/-- Claim C3: for every tool of the registry — expense creation, note
creation, expense fetch, note fetch, analysis — every failure raised
during execution is caught and returned as the tool result string, never
propagated past the executor boundary.  Each of the five wrappers is
total: any error its body raises (missing or malformed arguments while
parsing, or the model call failing for `tool_analyze`) is rendered as
the wrapper's human-readable "Error ...: " message; and a network
failure from the storage or notes collaborator never escapes the
handler — it surfaces as an `error` dict inside the ordinary result
string of the create/fetch tools. -/
theorem claim_C3_errors_normalized
    (netCE netCN : Record → Except String Record)
    (netFE : String → Int → Except String FetchResult)
    (netFN : String → Int → Except String (List Record))
    (llm : String → Except String String)
    (today input_str : String) :
    ((∃ s, tool_create_expense_body netCE today input_str = Except.ok s ∧
        tool_create_expense netCE today input_str = s) ∨
      (∃ e, tool_create_expense_body netCE today input_str = Except.error e ∧
        tool_create_expense netCE today input_str = "Error creating expense: " ++ e)) ∧
    ((∃ s, tool_create_note_body netCN input_str = Except.ok s ∧
        tool_create_note netCN input_str = s) ∨
      (∃ e, tool_create_note_body netCN input_str = Except.error e ∧
        tool_create_note netCN input_str = "Error creating note: " ++ e)) ∧
    ((∃ s, tool_fetch_expenses_body netFE input_str = Except.ok s ∧
        tool_fetch_expenses netFE input_str = s) ∨
      (∃ e, tool_fetch_expenses_body netFE input_str = Except.error e ∧
        tool_fetch_expenses netFE input_str = "Error fetching expenses: " ++ e)) ∧
    ((∃ s, tool_fetch_notes_body netFN input_str = Except.ok s ∧
        tool_fetch_notes netFN input_str = s) ∨
      (∃ e, tool_fetch_notes_body netFN input_str = Except.error e ∧
        tool_fetch_notes netFN input_str = "Error fetching notes: " ++ e)) ∧
    ((∃ s, llm (analysis_prompt input_str) = Except.ok s ∧
        tool_analyze llm input_str = s) ∨
      (∃ e, llm (analysis_prompt input_str) = Except.error e ∧
        tool_analyze llm input_str = "Error during analysis: " ++ e)) ∧
    (∀ msg u a, dictGet (parsePairs input_str) "user_id" = some u →
      dictGet (parsePairs input_str) "amount" = some a →
      isFloatLit a = true →
      tool_create_expense (fun _ => Except.error msg) today input_str
        = pyStrDict [("error", PyVal.str ("Failed to create expense: " ++ msg))]) ∧
    (∀ msg u t, dictGet (parsePairs input_str) "user_id" = some u →
      dictGet (parsePairs input_str) "text" = some t →
      tool_create_note (fun _ => Except.error msg) input_str
        = pyStrDict [("error", PyVal.str ("Failed to create note: " ++ msg))]) ∧
    (∀ msg u, dictGet (parsePairs input_str) "user_id" = some u →
      isIntLit ((dictGet (parsePairs input_str) "limit").getD "20") = true →
      tool_fetch_expenses (fun _ _ => Except.error msg) input_str
        = pyStrList [[("error", PyVal.str ("Failed to fetch expenses: " ++ msg))]]) ∧
    (∀ msg u, dictGet (parsePairs input_str) "user_id" = some u →
      isIntLit ((dictGet (parsePairs input_str) "limit").getD "20") = true →
      tool_fetch_notes (fun _ _ => Except.error msg) input_str
        = pyStrList [[("error", PyVal.str ("Failed to fetch notes: " ++ msg))]]) := by
  refine ⟨?_, ?_, ?_, ?_, ?_, ?_, ?_, ?_, ?_⟩
  · cases h : tool_create_expense_body netCE today input_str with
    | ok s => exact Or.inl ⟨s, rfl, by simp [tool_create_expense, h]⟩
    | error e => exact Or.inr ⟨e, rfl, by simp [tool_create_expense, h]⟩
  · cases h : tool_create_note_body netCN input_str with
    | ok s => exact Or.inl ⟨s, rfl, by simp [tool_create_note, h]⟩
    | error e => exact Or.inr ⟨e, rfl, by simp [tool_create_note, h]⟩
  · cases h : tool_fetch_expenses_body netFE input_str with
    | ok s => exact Or.inl ⟨s, rfl, by simp [tool_fetch_expenses, h]⟩
    | error e => exact Or.inr ⟨e, rfl, by simp [tool_fetch_expenses, h]⟩
  · cases h : tool_fetch_notes_body netFN input_str with
    | ok s => exact Or.inl ⟨s, rfl, by simp [tool_fetch_notes, h]⟩
    | error e => exact Or.inr ⟨e, rfl, by simp [tool_fetch_notes, h]⟩
  · cases h : llm (analysis_prompt input_str) with
    | ok s => exact Or.inl ⟨s, rfl, by simp [tool_analyze, h]⟩
    | error e => exact Or.inr ⟨e, rfl, by simp [tool_analyze, h]⟩
  · intro msg u a hu ha hf
    simp [tool_create_expense, tool_create_expense_body, hu, ha, hf, create_expense]
  · intro msg u t hu ht
    simp [tool_create_note, tool_create_note_body, hu, ht, create_note]
  · intro msg u hu hl
    simp [tool_fetch_expenses, tool_fetch_expenses_body, hu, hl, fetch_expenses]
  · intro msg u hu hl
    simp [tool_fetch_notes, tool_fetch_notes_body, hu, hl, fetch_notes]

/-- Witness for `claim_C3_errors_normalized`: concrete failing network
oracles against one well-formed input carrying `user_id`, `amount` and
`text`. -/
theorem claim_C3_witness :
    (dictGet (parsePairs "user_id=u1;amount=12.5;text=hello") "user_id" = some "u1" ∧
      dictGet (parsePairs "user_id=u1;amount=12.5;text=hello") "amount" = some "12.5" ∧
      dictGet (parsePairs "user_id=u1;amount=12.5;text=hello") "text" = some "hello" ∧
      isFloatLit "12.5" = true ∧
      isIntLit ((dictGet (parsePairs "user_id=u1;amount=12.5;text=hello") "limit").getD "20")
        = true) ∧
    tool_create_expense (fun _ => Except.error "timeout") "2024-01-15"
        "user_id=u1;amount=12.5;text=hello"
      = pyStrDict [("error", PyVal.str ("Failed to create expense: " ++ "timeout"))] ∧
    tool_create_note (fun _ => Except.error "timeout") "user_id=u1;amount=12.5;text=hello"
      = pyStrDict [("error", PyVal.str ("Failed to create note: " ++ "timeout"))] ∧
    tool_fetch_expenses (fun _ _ => Except.error "timeout") "user_id=u1;amount=12.5;text=hello"
      = pyStrList [[("error", PyVal.str ("Failed to fetch expenses: " ++ "timeout"))]] ∧
    tool_fetch_notes (fun _ _ => Except.error "timeout") "user_id=u1;amount=12.5;text=hello"
      = pyStrList [[("error", PyVal.str ("Failed to fetch notes: " ++ "timeout"))]] :=
  ⟨⟨by decide, by decide, by decide, by decide, by decide⟩,
    (claim_C3_errors_normalized (fun _ => Except.error "timeout")
        (fun _ => Except.error "timeout") (fun _ _ => Except.error "timeout")
        (fun _ _ => Except.error "timeout") (fun _ => Except.error "x")
        "2024-01-15" "user_id=u1;amount=12.5;text=hello").2.2.2.2.2.1
      "timeout" "u1" "12.5" (by decide) (by decide) (by decide),
    (claim_C3_errors_normalized (fun _ => Except.error "timeout")
        (fun _ => Except.error "timeout") (fun _ _ => Except.error "timeout")
        (fun _ _ => Except.error "timeout") (fun _ => Except.error "x")
        "2024-01-15" "user_id=u1;amount=12.5;text=hello").2.2.2.2.2.2.1
      "timeout" "u1" "hello" (by decide) (by decide),
    (claim_C3_errors_normalized (fun _ => Except.error "timeout")
        (fun _ => Except.error "timeout") (fun _ _ => Except.error "timeout")
        (fun _ _ => Except.error "timeout") (fun _ => Except.error "x")
        "2024-01-15" "user_id=u1;amount=12.5;text=hello").2.2.2.2.2.2.2.1
      "timeout" "u1" (by decide) (by decide),
    (claim_C3_errors_normalized (fun _ => Except.error "timeout")
        (fun _ => Except.error "timeout") (fun _ _ => Except.error "timeout")
        (fun _ _ => Except.error "timeout") (fun _ => Except.error "x")
        "2024-01-15" "user_id=u1;amount=12.5;text=hello").2.2.2.2.2.2.2.2
      "timeout" "u1" (by decide) (by decide)⟩

/-- A fetch oracle for a user with zero recorded expenses: the API
responds with an empty `expenses` array. -/
def netEmptyFetch : String → Int → Except String FetchResult :=
  fun _ _ => Except.ok ⟨some []⟩

/-- Claim C6 counterexample: for a user with zero recorded expenses the
fetch tool returns `str([])` — the two-character text "[]" — not the
literal "No expenses found for this user.", which appears nowhere in the
code. -/
theorem claim_C6_counterexample :
    tool_fetch_expenses netEmptyFetch "user_id=u1" = "[]" ∧
    "[]" ≠ "No expenses found for this user." :=
  ⟨rfl, by decide⟩

/-- Claim C6 (amended): when the expense-fetch tool is invoked for a user
with zero recorded expenses, it returns "[]" (the `str` rendition of the
empty record list) and no error. -/
theorem claim_C6_zero_records (net : String → Int → Except String FetchResult)
    (input_str u : String)
    (hu : dictGet (parsePairs input_str) "user_id" = some u)
    (hl : isIntLit ((dictGet (parsePairs input_str) "limit").getD "20") = true)
    (hnet : ∀ uid lim, net uid lim = Except.ok ⟨some []⟩) :
    tool_fetch_expenses net input_str = "[]" := by
  simp [tool_fetch_expenses, tool_fetch_expenses_body, hu, hl, hnet,
    fetch_expenses, pyStrList]
  rfl

/-- Witness for `claim_C6_zero_records` at the concrete empty-store
oracle. -/
theorem claim_C6_zero_records_witness :
    (dictGet (parsePairs "user_id=u1") "user_id" = some "u1" ∧
      isIntLit ((dictGet (parsePairs "user_id=u1") "limit").getD "20") = true) ∧
    tool_fetch_expenses netEmptyFetch "user_id=u1" = "[]" :=
  ⟨⟨by decide, by decide⟩,
    claim_C6_zero_records netEmptyFetch "user_id=u1" "u1" (by decide) (by decide)
      (fun _ _ => rfl)⟩

/-- Eight expense records, most recent first, each of amount 10.0 (total
sum 80.0). -/
def rs8 : List Record :=
  [[("amount", PyVal.raw "10.0"), ("description", PyVal.str "rec1"),
    ("date", PyVal.str "2025-09-09")],
   [("amount", PyVal.raw "10.0"), ("description", PyVal.str "rec2"),
    ("date", PyVal.str "2025-09-07")],
   [("amount", PyVal.raw "10.0"), ("description", PyVal.str "rec3"),
    ("date", PyVal.str "2025-09-06")],
   [("amount", PyVal.raw "10.0"), ("description", PyVal.str "rec4"),
    ("date", PyVal.str "2025-09-05")],
   [("amount", PyVal.raw "10.0"), ("description", PyVal.str "rec5"),
    ("date", PyVal.str "2025-09-04")],
   [("amount", PyVal.raw "10.0"), ("description", PyVal.str "rec6"),
    ("date", PyVal.str "2025-09-03")],
   [("amount", PyVal.raw "10.0"), ("description", PyVal.str "rec7"),
    ("date", PyVal.str "2025-09-02")],
   [("amount", PyVal.raw "10.0"), ("description", PyVal.str "rec9"),
    ("date", PyVal.str "2025-09-01")]]

/-- A fetch oracle whose store holds the eight records of `rs8`. -/
def netEight : String → Int → Except String FetchResult :=
  fun _ _ => Except.ok ⟨some rs8⟩

/-- Whether `pat` begins the list `s`. -/
def leadsWith : List Char → List Char → Bool
  | [], _ => true
  | _ :: _, [] => false
  | p :: ps, c :: cs => p = c && leadsWith ps cs

/-- Whether `pat` occurs as a contiguous substring of `s`. -/
def containsSub (pat : List Char) : List Char → Bool
  | [] => pat.isEmpty
  | c :: cs => leadsWith pat (c :: cs) || containsSub pat cs

set_option maxRecDepth 8000 in
/-- Claim C7 counterexample: a successful fetch of eight records is
returned as `str()` of the full raw payload — all eight records
verbatim, not a 5-7-most-recent summary — and no aggregate is added: the
total sum 80.0 occurs nowhere in the output (every record renders its
own 10.0 only), so neither the "only 5-7 most recent records" clause nor
the "sum always included" clause holds. -/
theorem claim_C7_counterexample :
    tool_fetch_expenses netEight "user_id=u1" = pyStrList rs8 ∧
    rs8.length = 8 ∧
    containsSub "80.0".data (pyStrList rs8).data = false :=
  ⟨rfl, rfl, by decide⟩

/-- Claim C7 (amended): no summarization happens — on every successful
fetch the tool returns the `str` rendition of the handler's full raw
record list, with no recency truncation beyond the request's own limit
and no count or sum aggregate appended. -/
theorem claim_C7_no_summarization (net : String → Int → Except String FetchResult)
    (input_str u : String) (expenses : List Record)
    (hu : dictGet (parsePairs input_str) "user_id" = some u)
    (hl : isIntLit ((dictGet (parsePairs input_str) "limit").getD "20") = true)
    (hnet : ∀ uid lim, net uid lim = Except.ok ⟨some expenses⟩) :
    tool_fetch_expenses net input_str = pyStrList expenses := by
  simp [tool_fetch_expenses, tool_fetch_expenses_body, hu, hl, hnet, fetch_expenses]

/-- Witness for `claim_C7_no_summarization` at the eight-record store. -/
theorem claim_C7_no_summarization_witness :
    (dictGet (parsePairs "user_id=u1") "user_id" = some "u1" ∧
      isIntLit ((dictGet (parsePairs "user_id=u1") "limit").getD "20") = true) ∧
    tool_fetch_expenses netEight "user_id=u1" = pyStrList rs8 :=
  ⟨⟨by decide, by decide⟩,
    claim_C7_no_summarization netEight "user_id=u1" "u1" rs8 (by decide) (by decide)
      (fun _ _ => rfl)⟩

/-! ## The Supabase storage client (database.py lines 90-100) -/

/-- A row of the `expenses` table (with the joined category name from
`select("*, categories(name)")`); the date column is modelled by a
comparable timestamp. -/
structure ExpenseRow where
  user_id : String
  amount : Int
  description : String
  category_name : String
  expense_date : Nat
deriving DecidableEq, Repr

/-- The row ordering requested by `.order("expense_date", desc=True)`. -/
def dateDesc (a b : ExpenseRow) : Prop := b.expense_date ≤ a.expense_date

instance : DecidableRel dateDesc := fun a b => Nat.decLe _ _

instance : IsTotal ExpenseRow dateDesc :=
  ⟨fun a b => Nat.le_total b.expense_date a.expense_date⟩

instance : IsTrans ExpenseRow dateDesc :=
  ⟨fun _ _ _ hab hbc => Nat.le_trans hbc hab⟩

/-- `SupabaseStorage.get_expenses`: select the rows of the given user,
order by `expense_date` descending, apply `.limit(limit)`; `result.data
or []` on success, and the `except` clause returns `[]` when the query
errors (`ok = false`).  The database content is the oracle `db`. -/
def get_expenses (ok : Bool) (db : List ExpenseRow) (user_id : String) (limit : Nat) :
    List ExpenseRow :=
  if ok then
    (List.insertionSort dateDesc (db.filter (fun r => r.user_id == user_id))).take limit
  else []

/-- Claim C8: for every user_id and limit, the storage client's
expense-list operation returns at most `limit` records, ordered by
expense date descending (pairwise: each record's date is at least the
next one's). -/
theorem claim_C8_list_limit_sorted (ok : Bool) (db : List ExpenseRow)
    (user_id : String) (limit : Nat) :
    (get_expenses ok db user_id limit).length ≤ limit ∧
    List.Sorted dateDesc (get_expenses ok db user_id limit) := by
  unfold get_expenses
  cases ok with
  | false => simp [List.Sorted]
  | true =>
      refine ⟨by simpa using List.length_take_le _ _, ?_⟩
      simpa using
        List.Pairwise.sublist (List.take_sublist _ _)
          (List.sorted_insertionSort dateDesc
            (db.filter (fun r => r.user_id == user_id)))

/-! ## The streaming endpoint (main.py lines 143-200) -/

/-- One chunk of `AGENT.astream`: an update from the `agent` node or from
the `tools` node, carrying the messages that node appended. -/
inductive Chunk
  | agent (messages : List AIMsg)
  | tools (messages : List ToolMsg)
deriving DecidableEq, Repr

/-- The server-sent events the generator emits. -/
inductive Event
  | start (session_id : String)
  | tool_call (tools : List String)
  | token (content : String)
  | tool_result (outputs : List String)
  | endEvt (session_id : String)
  | error (content : String)
deriving DecidableEq, Repr

/-- The events yielded for one `astream` chunk (the body of the `async
for` loop): a `tool_call` event when the latest agent message requests
tools, a `token` event when it carries text, a `tool_result` event when
the tools node produced messages. -/
def chunkEvents : Chunk → List Event
  | .agent msgs =>
      match msgs.getLast? with
      | none => []
      | some latest =>
          (if latest.tool_calls ≠ [] then
            [Event.tool_call (latest.tool_calls.map (fun tc => tc.name))]
          else []) ++
          (if latest.content ≠ "" then [Event.token latest.content] else [])
  | .tools msgs =>
      if msgs ≠ [] then [Event.tool_result (msgs.map (fun m => m.content))] else []

/-- The single terminal event: `end` on normal completion of the chunk
stream, `error` with the exception text when the stream raised. -/
def terminalEvent (session_id : String) : Option String → Event
  | none => Event.endEvt session_id
  | some e => Event.error e

/-- `event_generator` (main.py lines 158-198): a `start` event, then the
per-chunk events for every chunk the agent stream yielded before
(possibly) failing, then the one terminal event; when the `try` body
raises after `chunks` were processed, the `except` clause emits a single
`error` event instead of `end`. -/
def event_generator (session_id : String) (chunks : List Chunk)
    (failure : Option String) : List Event :=
  Event.start session_id ::
    (chunks.bind chunkEvents ++ [terminalEvent session_id failure])

/-- Terminal events of the SSE protocol. -/
def isTerminal : Event → Bool
  | .endEvt _ => true
  | .error _ => true
  | _ => false

theorem isTerminal_start (s : String) : isTerminal (Event.start s) = false := rfl

/-- The per-chunk events never include a terminal event. -/
theorem chunkEvents_not_terminal (c : Chunk) :
    ∀ e ∈ chunkEvents c, isTerminal e = false := by
  intro e he
  cases c with
  | agent msgs =>
      cases hl : msgs.getLast? with
      | none => simp [chunkEvents, hl] at he
      | some latest =>
          simp only [chunkEvents, hl] at he
          rcases List.mem_append.mp he with h | h <;> split_ifs at h <;>
            simp only [List.mem_singleton, List.not_mem_nil] at h <;>
            first
              | exact absurd h (by simp)
              | (subst h; rfl)
  | tools msgs =>
      simp only [chunkEvents] at he
      split_ifs at he <;>
        simp only [List.mem_singleton, List.not_mem_nil] at he
      subst he; rfl

/-- Claim C9: the emitted event stream opens with `start`, contains the
per-chunk events in chronological (chunk) order, and ends with exactly
one terminal event — `end` on normal completion, a single `error` event
when the stream raised — never zero or two terminal events: the whole
stream counts exactly one terminal event, the last position holds it,
and everything before it is non-terminal. -/
theorem claim_C9_single_terminal_event (session_id : String) (chunks : List Chunk)
    (failure : Option String) :
    (event_generator session_id chunks failure).countP isTerminal = 1 ∧
    ((event_generator session_id chunks failure).dropLast).countP isTerminal = 0 ∧
    (event_generator session_id chunks failure).getLast?
      = some (terminalEvent session_id failure) ∧
    isTerminal (terminalEvent session_id failure) = true ∧
    (event_generator session_id chunks failure).dropLast
      = Event.start session_id :: chunks.bind chunkEvents := by
  have hBcount : (chunks.bind chunkEvents).countP isTerminal = 0 :=
    List.countP_eq_zero.mpr (by
      intro e he
      rcases List.mem_bind.mp he with ⟨c, _, hec⟩
      simp [chunkEvents_not_terminal c e hec])
  have hT : isTerminal (terminalEvent session_id failure) = true := by
    cases failure <;> rfl
  have hshape : event_generator session_id chunks failure
      = (Event.start session_id :: chunks.bind chunkEvents)
          ++ [terminalEvent session_id failure] := by
    simp [event_generator]
  refine ⟨?_, ?_, ?_, hT, ?_⟩
  · rw [hshape, List.countP_append, List.countP_cons]
    simp [hBcount, hT, List.countP_cons, isTerminal_start]
  · rw [hshape, List.dropLast_concat, List.countP_cons]
    simp [hBcount, isTerminal_start]
  · rw [hshape, List.getLast?_concat]
  · rw [hshape, List.dropLast_concat]

/-! ## `get_or_create_category` (database.py lines 33-55).

Category names are modelled as lists of character codes (the repo's
names are ASCII).  The `categories` table is a list of rows; `ilike` is
PostgreSQL's case-insensitive pattern match with `%`/`_` wildcards
(codes 37 and 95); the insert is modelled as an append returning the
inserted row. -/

/-- `str.lower` on one ASCII character code. -/
def lowerCode (c : Nat) : Nat := if 65 ≤ c ∧ c ≤ 90 then c + 32 else c

/-- `str.upper` on one ASCII character code. -/
def upperCode (c : Nat) : Nat := if 97 ≤ c ∧ c ≤ 122 then c - 32 else c

/-- Cased (alphabetic ASCII) character codes. -/
def isAlphaCode (c : Nat) : Bool :=
  (65 ≤ c && c ≤ 90) || (97 ≤ c && c ≤ 122)

/-- ASCII whitespace codes (`str.strip`). -/
def isSpaceCode (c : Nat) : Bool :=
  c = 32 || c = 9 || c = 10 || c = 13 || c = 11 || c = 12

/-- `name.strip()`. -/
def stripCodes (l : List Nat) : List Nat :=
  ((l.dropWhile isSpaceCode).reverse.dropWhile isSpaceCode).reverse

/-- `name.title()` worker: uppercase every cased character following a
non-cased one, lowercase the other cased characters. -/
def titleFrom : Bool → List Nat → List Nat
  | _, [] => []
  | prevCased, c :: r =>
      if isAlphaCode c then
        (if prevCased then lowerCode c else upperCode c) :: titleFrom true r
      else c :: titleFrom false r

/-- `name.title()`. -/
def titleCodes (l : List Nat) : List Nat := titleFrom false l

/-- Whether `f` accepts some suffix of the list (including the list
itself and the empty suffix). -/
def anySuffix (f : List Nat → Bool) : List Nat → Bool
  | [] => f []
  | d :: s2 => f (d :: s2) || anySuffix f s2

/-- The PostgREST pattern translation applied by `.ilike()`: every `*`
(42) in the supplied pattern becomes the SQL wildcard `%` (37). -/
def starToPercent (l : List Nat) : List Nat :=
  l.map (fun c => if c = 42 then 37 else c)

/-- PostgreSQL `ilike`: case-insensitive match of the whole string
against the pattern; `%` (37) matches any sequence, `_` (95) matches any
single character, and the default escape character `\` (92) makes the
following pattern character literal (still compared case-insensitively).
A pattern ending in a bare escape character raises an error in
PostgreSQL; it is modelled as a non-match — the branch is unreachable
under the theorems below, whose hypotheses exclude the escape character
from names. -/
def ilikeMatch : List Nat → List Nat → Bool
  | [], s => s.isEmpty
  | c :: p2, s =>
      if c = 37 then anySuffix (ilikeMatch p2) s
      else if c = 92 then
        match p2 with
        | [] => false
        | e :: p3 =>
            match s with
            | [] => false
            | d :: s2 => (lowerCode e == lowerCode d) && ilikeMatch p3 s2
      else
        match s with
        | [] => false
        | d :: s2 =>
            if c = 95 then ilikeMatch p2 s2
            else (lowerCode c == lowerCode d) && ilikeMatch p2 s2

/-- A row of the `categories` table. -/
structure Category where
  user_id : List Nat
  name : List Nat
deriving DecidableEq, Repr

/-- The lookup
`select("id, name").eq("user_id", user_id).ilike("name", name)`: the
user's rows whose name matches the raw `name` as an `ilike` pattern
(after PostgREST's `*` → `%` translation), in table order. -/
def queryCategories (db : List Category) (user_id name : List Nat) : List Category :=
  db.filter (fun c => c.user_id == user_id && ilikeMatch (starToPercent name) c.name)

/-- `get_or_create_category`: return the first match of the
case-insensitive lookup; otherwise insert a row named
`name.strip().title()` and return it.  The result pairs the returned
category with the updated table. -/
def get_or_create_category (db : List Category) (user_id name : List Nat) :
    Category × List Category :=
  match queryCategories db user_id name with
  | c :: _ => (c, db)
  | [] =>
      let newCat : Category := ⟨user_id, titleCodes (stripCodes name)⟩
      (newCat, db ++ [newCat])

/-- Character codes of a string literal. -/
def strCodes (s : String) : List Nat := s.data.map Char.toNat

/-- Claim C10 counterexample: with `name = " food"` (leading space) and
an empty table, the first call stores the stripped, title-cased name
"Food"; the second call with the very same `name` (hence trivially a
casing of it) looks up with the raw `" food"` pattern, which fails to
match "Food", so a second, duplicate "Food" row is inserted instead of
the stored category being returned. -/
theorem claim_C10_counterexample :
    (get_or_create_category
        (get_or_create_category [] (strCodes "u1") (strCodes " food")).2
        (strCodes "u1") (strCodes " food")).2
      = [⟨strCodes "u1", strCodes "Food"⟩, ⟨strCodes "u1", strCodes "Food"⟩] := by
  decide

theorem lowerCode_idem (c : Nat) : lowerCode (lowerCode c) = lowerCode c := by
  unfold lowerCode; split_ifs <;> omega

theorem lowerCode_upperCode (c : Nat) : lowerCode (upperCode c) = lowerCode c := by
  unfold lowerCode upperCode; split_ifs <;> omega

theorem lowerCode_eq_37 {d : Nat} (h : lowerCode d = 37) : d = 37 := by
  unfold lowerCode at h; split_ifs at h <;> omega

theorem lowerCode_eq_95 {d : Nat} (h : lowerCode d = 95) : d = 95 := by
  unfold lowerCode at h; split_ifs at h <;> omega

theorem lowerCode_eq_42 {d : Nat} (h : lowerCode d = 42) : d = 42 := by
  unfold lowerCode at h; split_ifs at h <;> omega

theorem lowerCode_eq_92 {d : Nat} (h : lowerCode d = 92) : d = 92 := by
  unfold lowerCode at h; split_ifs at h <;> omega

/-- The PostgREST translation is the identity on `*`-free patterns. -/
theorem starToPercent_eq_self {l : List Nat} (h : 42 ∉ l) : starToPercent l = l := by
  unfold starToPercent
  induction l with
  | nil => rfl
  | cons c r ih =>
      have hc : ¬ c = 42 := fun hh => h (hh ▸ List.mem_cons_self c r)
      simp only [List.map_cons, if_neg hc]
      rw [ih (fun hh => h (List.mem_cons_of_mem c hh))]

/-- `title` only changes letter case. -/
theorem map_lowerCode_titleFrom (l : List Nat) :
    ∀ b, (titleFrom b l).map lowerCode = l.map lowerCode := by
  induction l with
  | nil => intro b; rfl
  | cons c r ih =>
      intro b
      cases ha : isAlphaCode c with
      | false => simp [titleFrom, ha, ih]
      | true =>
          cases b <;>
            simp [titleFrom, ha, ih, lowerCode_idem, lowerCode_upperCode]

/-- A pattern free of wildcards and of the escape character
`ilike`-matches exactly the strings with the same lowercase
projection. -/
theorem ilikeMatch_noWild : ∀ p s : List Nat, 37 ∉ p → 95 ∉ p → 92 ∉ p →
    (ilikeMatch p s = true ↔ p.map lowerCode = s.map lowerCode) := by
  intro p
  induction p with
  | nil =>
      intro s _ _ _
      cases s <;> simp [ilikeMatch]
  | cons c p2 ih =>
      intro s h37 h95 h92
      have hc37 : ¬ c = 37 := fun h => h37 (h ▸ List.mem_cons_self c p2)
      have hc95 : ¬ c = 95 := fun h => h95 (h ▸ List.mem_cons_self c p2)
      have hc92 : ¬ c = 92 := fun h => h92 (h ▸ List.mem_cons_self c p2)
      have h37' : 37 ∉ p2 := fun h => h37 (List.mem_cons_of_mem c h)
      have h95' : 95 ∉ p2 := fun h => h95 (List.mem_cons_of_mem c h)
      have h92' : 92 ∉ p2 := fun h => h92 (List.mem_cons_of_mem c h)
      cases s with
      | nil =>
          rw [ilikeMatch.eq_def]
          simp [hc37, hc92]
      | cons d s2 =>
          rw [ilikeMatch.eq_def]
          simp [hc37, hc92, hc95, ih s2 h37' h95' h92', List.cons.injEq]

/-- Claim C10 (amended): lookup-or-create is idempotent up to letter
case provided the name carries no surrounding whitespace and none of the
pattern-special characters of the lookup stack — the `ilike` wildcards
`%` and `_`, PostgREST's `*` alias for `%`, and the escape character
`\`: if the first call created the category (stored as
`name.strip().title()`, here `titleCodes name`), then a second call with
the same user and any casing of the same name finds the stored row
case-insensitively and returns it without inserting a duplicate.  (Names
with surrounding whitespace break this — see the counterexample —
because the lookup uses the raw name while the insert stores the
stripped, title-cased name; pattern-special characters break it because
the raw name is interpreted as a pattern while the stored name is kept
literal.) -/
theorem claim_C10_case_idempotent (db : List Category) (user_id name name2 : List Nat)
    (hstrip : stripCodes name = name)
    (h37 : 37 ∉ name) (h95 : 95 ∉ name) (h42 : 42 ∉ name) (h92 : 92 ∉ name)
    (hcase : name2.map lowerCode = name.map lowerCode)
    (hmiss : queryCategories db user_id name = []) :
    get_or_create_category db user_id name
        = (⟨user_id, titleCodes name⟩, db ++ [⟨user_id, titleCodes name⟩]) ∧
    get_or_create_category (db ++ [⟨user_id, titleCodes name⟩]) user_id name2
        = (⟨user_id, titleCodes name⟩, db ++ [⟨user_id, titleCodes name⟩]) := by
  have hlift : ∀ k : Nat, lowerCode k = k → (∀ d : Nat, lowerCode d = k → d = k) →
      k ∉ name → k ∉ name2 := by
    intro k hk hchar hkn hmem
    have : k ∈ name2.map lowerCode := by
      have := List.mem_map_of_mem lowerCode hmem
      rwa [hk] at this
    rw [hcase] at this
    rcases List.mem_map.mp this with ⟨d, hd, hld⟩
    exact hkn (hchar d hld ▸ hd)
  have h37b : 37 ∉ name2 :=
    hlift 37 (by unfold lowerCode; split_ifs <;> omega) (fun d => lowerCode_eq_37) h37
  have h95b : 95 ∉ name2 :=
    hlift 95 (by unfold lowerCode; split_ifs <;> omega) (fun d => lowerCode_eq_95) h95
  have h42b : 42 ∉ name2 :=
    hlift 42 (by unfold lowerCode; split_ifs <;> omega) (fun d => lowerCode_eq_42) h42
  have h92b : 92 ∉ name2 :=
    hlift 92 (by unfold lowerCode; split_ifs <;> omega) (fun d => lowerCode_eq_92) h92
  have hsp1 : starToPercent name = name := starToPercent_eq_self h42
  have hsp2 : starToPercent name2 = name2 := starToPercent_eq_self h42b
  have hdbnone : ∀ c ∈ db,
      ¬ (c.user_id == user_id && ilikeMatch name c.name) = true := by
    intro c hc
    have := (List.filter_eq_nil.mp hmiss) c hc
    rwa [hsp1] at this
  have hdbnone2 : ∀ c ∈ db,
      (c.user_id == user_id && ilikeMatch name2 c.name) = false := by
    intro c hc
    rcases hb : (c.user_id == user_id) with _ | _
    · simp [hb]
    · simp only [hb, Bool.true_and]
      by_contra hmatch
      rw [Bool.not_eq_false] at hmatch
      have hm2 := (ilikeMatch_noWild name2 c.name h37b h95b h92b).mp hmatch
      have hm1 : ilikeMatch name c.name = true :=
        (ilikeMatch_noWild name c.name h37 h95 h92).mpr (hcase ▸ hm2)
      exact hdbnone c hc (by simp [hb, hm1])
  have hnewmatch : ilikeMatch name2 (titleCodes name) = true :=
    (ilikeMatch_noWild name2 (titleCodes name) h37b h95b h92b).mpr
      (by rw [hcase, titleCodes, map_lowerCode_titleFrom])
  have hfirst : get_or_create_category db user_id name
      = (⟨user_id, titleCodes name⟩, db ++ [⟨user_id, titleCodes name⟩]) := by
    unfold get_or_create_category
    rw [hmiss, hstrip]
  refine ⟨hfirst, ?_⟩
  have hq2 : queryCategories (db ++ [⟨user_id, titleCodes name⟩]) user_id name2
      = [⟨user_id, titleCodes name⟩] := by
    unfold queryCategories
    rw [hsp2, List.filter_append]
    rw [List.filter_eq_nil.mpr (by intro c hc; simp [hdbnone2 c hc])]
    simp [hnewmatch]
  unfold get_or_create_category
  rw [hq2]

/-- Witness for `claim_C10_case_idempotent`: creating "food" for a user
and then asking for "FOOD" returns the stored "Food" without inserting a
duplicate. -/
theorem claim_C10_case_idempotent_witness :
    (stripCodes (strCodes "food") = strCodes "food" ∧
      37 ∉ strCodes "food" ∧ 95 ∉ strCodes "food" ∧
      42 ∉ strCodes "food" ∧ 92 ∉ strCodes "food" ∧
      (strCodes "FOOD").map lowerCode = (strCodes "food").map lowerCode ∧
      queryCategories [] (strCodes "u1") (strCodes "food") = []) ∧
    (get_or_create_category [] (strCodes "u1") (strCodes "food")
        = (⟨strCodes "u1", titleCodes (strCodes "food")⟩,
            [] ++ [⟨strCodes "u1", titleCodes (strCodes "food")⟩]) ∧
      get_or_create_category ([] ++ [⟨strCodes "u1", titleCodes (strCodes "food")⟩])
          (strCodes "u1") (strCodes "FOOD")
        = (⟨strCodes "u1", titleCodes (strCodes "food")⟩,
            [] ++ [⟨strCodes "u1", titleCodes (strCodes "food")⟩])) :=
  ⟨⟨by decide, by decide, by decide, by decide, by decide, by decide, by decide⟩,
    claim_C10_case_idempotent [] (strCodes "u1") (strCodes "food") (strCodes "FOOD")
      (by decide) (by decide) (by decide) (by decide) (by decide) (by decide)
      (by decide)⟩

end OneAgent

